import Mathlib

/-!
Verification of the JJY time-signal transmitter sketch family
(`jjytransmitter.ino` and its two sibling variants).

The pure parts of the sketches (BCD/parity codec, frame encoder, the 100 ms
modulator handler, the scheduler branch of `loop`, and the deep-sleep duration
arithmetic) are embedded as Lean functions.  Hardware side effects (timer
create/delete, LEDC attach/detach, pin writes) are modelled as fields of an
explicit hardware-state record, and the scheduler branch of `loop` is a pure
step function on that record.
-/

namespace JJYVibe

/-! ## Configuration constants (identical across the sketch variants) -/

def BOOT_TX_MINUTES : Nat := 10

def NIGHT_TX_MINUTES : Nat := 15

def NIGHT_START_HOUR : Nat := 0

def NIGHT_END_HOUR : Nat := 5

def WAKEUP_HOUR : Nat := 23

def WAKEUP_MIN : Nat := 50

def DUTY_50 : Nat := 127

def CODE_MARKER : Int := 2

def CODE_LOW : Int := 0

def CODE_HIGH : Int := 1

/-! ## Calendar record (the fields of `struct tm` the encoder reads) -/

structure Tm where
  tm_hour : Nat
  tm_min : Nat
  tm_sec : Nat
  tm_year : Nat
  tm_yday : Nat
  tm_wday : Nat
deriving DecidableEq

/-! ## BCD / parity codec -/

/-- `int3bcd` from the sketch: pack three decimal digits into nibbles. -/
def int3bcd (a : Nat) : Nat :=
  a % 10 + a / 10 % 10 * 16 + a / 100 % 10 * 256

/-- `parity8` from the sketch: `pa = a; for (i = 1; i < 8; i++) pa += a >> i; return pa % 2;`.
The sketch only ever calls it on non-negative BCD values, so the argument is a `Nat`
and `>>` is the natural-number right shift. -/
def parity8 (a : Nat) : Nat :=
  ((List.range' 1 7).foldl (fun pa i => pa + a >>> i) a) % 2

/-- Sum of bits 0–7 of `a` (the number of set bits among the low eight bits). -/
def setBits8 (a : Nat) : Nat :=
  a % 2 + a / 2 % 2 + a / 4 % 2 + a / 8 % 2 +
    a / 16 % 2 + a / 32 % 2 + a / 64 % 2 + a / 128 % 2

/-! ## Frame encoder (`calculateJJYCodeForTime`, body after `localtime_r`) -/

def calculateJJYCodeForTime (t : Tm) : Int :=
  let h := int3bcd t.tm_hour
  let m := int3bcd t.tm_min
  let y := int3bcd ((t.tm_year + 1900) % 100)
  let d := int3bcd (t.tm_yday + 1)
  let w := t.tm_wday
  let sec := t.tm_sec
  if sec = 0 ∨ sec = 9 ∨ sec = 19 ∨ sec = 29 ∨ sec = 39 ∨ sec = 49 ∨ sec = 59 then
    CODE_MARKER
  else if 1 ≤ sec ∧ sec ≤ 8 then
    if sec = 4 then CODE_LOW
    else
      let mask := if sec = 1 then 0x40 else if sec = 2 then 0x20 else if sec = 3 then 0x10
        else if sec = 5 then 0x08 else if sec = 6 then 0x04 else if sec = 7 then 0x02 else 0x01
      if m &&& mask ≠ 0 then CODE_HIGH else CODE_LOW
  else if 12 ≤ sec ∧ sec ≤ 18 then
    if sec = 14 then CODE_LOW
    else
      let mask := if sec = 12 then 0x20 else if sec = 13 then 0x10 else if sec = 15 then 0x08
        else if sec = 16 then 0x04 else if sec = 17 then 0x02 else 0x01
      if h &&& mask ≠ 0 then CODE_HIGH else CODE_LOW
  else if 22 ≤ sec ∧ sec ≤ 33 then
    if sec = 24 then CODE_LOW
    else
      let mask := if sec = 22 then 0x200 else if sec = 23 then 0x100 else if sec = 25 then 0x080
        else if sec = 26 then 0x040 else if sec = 27 then 0x020 else if sec = 28 then 0x010
        else if sec = 30 then 0x008 else if sec = 31 then 0x004 else if sec = 32 then 0x002
        else 0x001
      if d &&& mask ≠ 0 then CODE_HIGH else CODE_LOW
  else if sec = 36 then
    if parity8 h ≠ 0 then CODE_HIGH else CODE_LOW
  else if sec = 37 then
    if parity8 m ≠ 0 then CODE_HIGH else CODE_LOW
  else if 41 ≤ sec ∧ sec ≤ 48 then
    let mask := if sec = 41 then 0x80 else if sec = 42 then 0x40 else if sec = 43 then 0x20
      else if sec = 44 then 0x10 else if sec = 45 then 0x08 else if sec = 46 then 0x04
      else if sec = 47 then 0x02 else 0x01
    if y &&& mask ≠ 0 then CODE_HIGH else CODE_LOW
  else if 50 ≤ sec ∧ sec ≤ 52 then
    let mask := if sec = 50 then 0x04 else if sec = 51 then 0x02 else 0x01
    if w &&& mask ≠ 0 then CODE_HIGH else CODE_LOW
  else CODE_LOW

/-! ## Carrier modulator: the 100 ms duty-table handler `onTimer` -/

/-- `onTimer` from `jjytransmitter.ino`: given the latched `currentSecondCode`
and the `currentSlot100ms` counter, return the duty written by this firing and
the counter value after the firing (wrap at 10, then post-increment). -/
def onTimer (code : Int) (slot : Nat) : Nat × Nat :=
  let slot := if 10 ≤ slot then 0 else slot
  let duty : Nat :=
    if code = CODE_MARKER then (if slot < 2 then DUTY_50 else 0)
    else if code = CODE_HIGH then (if slot < 5 then DUTY_50 else 0)
    else if code = CODE_LOW then (if slot < 8 then DUTY_50 else 0)
    else 0
  (duty, slot + 1)

/-! ## Hardware state and the modulator start/stop routines -/

/-- The hardware side effects touched by `startTransmission` / `stopTransmission`:
whether `jjyTimerHandle` is non-null, whether LEDC is attached to `PIN_ANT`,
the digital levels of `PIN_ANT` and `PIN_LED`, the last LEDC duty written, and
run counters for the phase-alignment busy-wait and the `ledcAttach` call. -/
structure HwState where
  jjyTimerHandle : Bool
  pwmAttached : Bool
  antHigh : Bool
  ledHigh : Bool
  duty : Nat
  alignRuns : Nat
  attachRuns : Nat
deriving DecidableEq

/-- `startTransmission`: early-return when the timer handle is non-null;
otherwise attach LEDC, write duty 0, run the microsecond phase alignment,
and create + start the periodic timer. -/
def startTransmission (s : HwState) : HwState :=
  if s.jjyTimerHandle then s
  else
    { s with
      pwmAttached := true
      attachRuns := s.attachRuns + 1
      duty := 0
      alignRuns := s.alignRuns + 1
      jjyTimerHandle := true }

/-- `stopTransmission`: when the timer handle is non-null, stop and delete the
timer, detach LEDC, drive `PIN_ANT` low and `PIN_LED` high; otherwise do nothing. -/
def stopTransmission (s : HwState) : HwState :=
  if s.jjyTimerHandle then
    { s with
      jjyTimerHandle := false
      pwmAttached := false
      antHigh := false
      ledHigh := true }
  else s

/-! ## Scheduler (`loop` of `jjytransmitter.ino`) -/

inductive OperatingWindow
  | BOOT_TEST
  | NIGHT_TRANSMIT
  | NIGHT_IDLE
  | PRE_MIDNIGHT_HOLD
  | DAYTIME_SUSPEND
deriving DecidableEq

structure LoopResult where
  window : OperatingWindow
  hw : HwState
  sleepSec : Option Nat
deriving DecidableEq

/-- The scheduler branch of `loop` in `jjytransmitter.ino`, as a pure step
function of the hardware state, the elapsed uptime `millis() - bootTime`
in milliseconds, and the current local time fields.  The `sleepSec` component
is the argument passed to `enterLightSleep` (none when no sleep is requested
this iteration). -/
def loop (hw : HwState) (uptimeMs h m s : Nat) : LoopResult :=
  if uptimeMs < BOOT_TX_MINUTES * 60 * 1000 then
    ⟨.BOOT_TEST, if hw.jjyTimerHandle then hw else startTransmission hw, none⟩
  else if NIGHT_START_HOUR ≤ h ∧ h < NIGHT_END_HOUR then
    if m < NIGHT_TX_MINUTES then
      ⟨.NIGHT_TRANSMIT, if hw.jjyTimerHandle then hw else startTransmission hw, none⟩
    else
      ⟨.NIGHT_IDLE, if hw.jjyTimerHandle then stopTransmission hw else hw,
        some ((59 - m) * 60 + (60 - s))⟩
  else if h = 23 ∧ WAKEUP_MIN ≤ m then
    ⟨.PRE_MIDNIGHT_HOLD, if hw.jjyTimerHandle then stopTransmission hw else hw,
      some ((59 - m) * 60 + (60 - s))⟩
  else
    ⟨.DAYTIME_SUSPEND, if hw.jjyTimerHandle then stopTransmission hw else hw, none⟩

/-- `enterDaytimeDeepSleep`: build the wake target from today's calendar day
(`dayStart` is the epoch value of today's 00:00:00 as produced by `mktime`)
with the hour/minute/second fields replaced by 23:50:00, roll the target by
24 h when it is not strictly in the future, and return `target - now`.  The
return value is the `secondsToSleep` the routine arms the wake timer with. -/
def enterDaytimeDeepSleep (dayStart h m s : Int) : Int :=
  let now := dayStart + h * 3600 + m * 60 + s
  let target := dayStart + (WAKEUP_HOUR : Int) * 3600 + (WAKEUP_MIN : Int) * 60
  let target := if target ≤ now then target + 24 * 3600 else target
  target - now

/-! ## Variant with the scheduled-wake drift fix (`src/unnamed/part_000`) -/

namespace DriftFix

/-- The scheduler branch of `loop` in the drift-fix variant: the boot-test
branch additionally requires `!isScheduledWake`, and the pre-midnight check
precedes the night-window check. -/
def loop (isScheduledWake : Bool) (hw : HwState) (uptimeMs h m s : Nat) : LoopResult :=
  if isScheduledWake = false ∧ uptimeMs < BOOT_TX_MINUTES * 60 * 1000 then
    ⟨.BOOT_TEST, if hw.jjyTimerHandle then hw else startTransmission hw, none⟩
  else if h = 23 ∧ WAKEUP_MIN ≤ m then
    ⟨.PRE_MIDNIGHT_HOLD, if hw.jjyTimerHandle then stopTransmission hw else hw,
      some ((59 - m) * 60 + (60 - s))⟩
  else if NIGHT_START_HOUR ≤ h ∧ h < NIGHT_END_HOUR then
    if m < NIGHT_TX_MINUTES then
      ⟨.NIGHT_TRANSMIT, if hw.jjyTimerHandle then hw else startTransmission hw, none⟩
    else
      ⟨.NIGHT_IDLE, if hw.jjyTimerHandle then stopTransmission hw else hw,
        some ((59 - m) * 60 + (60 - s))⟩
  else
    ⟨.DAYTIME_SUSPEND, if hw.jjyTimerHandle then stopTransmission hw else hw, none⟩

/-- The guard in `setup` of the drift-fix variant that decides whether the
boot-test transmission is started:
`!isScheduledWake && (millis() - bootTime < BOOT_TX_MINUTES * 60 * 1000UL)`. -/
def setupBootTxStart (isScheduledWake : Bool) (uptimeMs : Nat) : Bool :=
  !isScheduledWake && decide (uptimeMs < BOOT_TX_MINUTES * 60 * 1000)

end DriftFix

/-! ## Edge-switching modulator variant (`src/unnamed/part_001`) -/

namespace TickerVariant

def CODE_MARKER : Int := 0xFF

/-- `jjyHandler` from the Ticker variant: given the slot within the second and
the current carrier level, return the carrier level after this firing.
(`carrierOn` / `carrierOff` write `DUTY_50` / `DUTY_OFF`; we track only the
on/off level.) -/
def jjyHandler (code : Int) (slot : Nat) (carrier : Bool) : Bool :=
  if slot = 0 then true
  else if slot = 2 then (if code = CODE_MARKER then false else carrier)
  else if slot = 5 then (if code ≠ 0 ∧ code ≠ CODE_MARKER then false else carrier)
  else if slot = 8 then false
  else carrier

/-- Carrier level during subslot `n` when `jjyHandler` has fired at the start
of every subslot `0..n` of the second, starting from level `carrier0`. -/
def levelAfter (code : Int) (carrier0 : Bool) : Nat → Bool
  | 0 => jjyHandler code 0 carrier0
  | n + 1 => jjyHandler code (n + 1) (levelAfter code carrier0 n)

end TickerVariant

/-! ## Abstract modulation symbols and their per-variant encodings -/

inductive ModulationSymbol
  | MARKER
  | ONE
  | ZERO
deriving DecidableEq

/-- The code value that `jjytransmitter.ino` latches for each symbol. -/
def inoCode : ModulationSymbol → Int
  | .MARKER => CODE_MARKER
  | .ONE => CODE_HIGH
  | .ZERO => CODE_LOW

/-- The code value that the Ticker variant's `getJJYCode` returns for each symbol. -/
def tickerCode : ModulationSymbol → Int
  | .MARKER => TickerVariant.CODE_MARKER
  | .ONE => 1
  | .ZERO => 0

/-! ## Spec-side decoder for the BCD round-trip claim -/

/-- Read a produced symbol as a bit: 1 when the encoder emits `CODE_HIGH` (ONE). -/
def symBit (t : Tm) : Nat :=
  if calculateJJYCodeForTime t = CODE_HIGH then 1 else 0

/-- The `Tm` with the given fields (hour, minute, yday, year, wday) at second `sec`. -/
def tmAt (hh mm yday year wday sec : Nat) : Tm :=
  ⟨hh, mm, sec, year, yday, wday⟩

/-- Spec-side decode of the minute BCD value from the symbols at seconds 1–8
(most-significant-first, skipping the reserved zero at second 4). -/
def decodedMinuteBcd (hh mm yday year wday : Nat) : Nat :=
  64 * symBit (tmAt hh mm yday year wday 1) +
  32 * symBit (tmAt hh mm yday year wday 2) +
  16 * symBit (tmAt hh mm yday year wday 3) +
  8 * symBit (tmAt hh mm yday year wday 5) +
  4 * symBit (tmAt hh mm yday year wday 6) +
  2 * symBit (tmAt hh mm yday year wday 7) +
  symBit (tmAt hh mm yday year wday 8)

/-- Spec-side decode of the hour BCD value from the symbols at seconds 12–18
(most-significant-first, skipping the reserved zero at second 14). -/
def decodedHourBcd (hh mm yday year wday : Nat) : Nat :=
  32 * symBit (tmAt hh mm yday year wday 12) +
  16 * symBit (tmAt hh mm yday year wday 13) +
  8 * symBit (tmAt hh mm yday year wday 15) +
  4 * symBit (tmAt hh mm yday year wday 16) +
  2 * symBit (tmAt hh mm yday year wday 17) +
  symBit (tmAt hh mm yday year wday 18)

/-- Decode a two-digit packed BCD value back to an integer. -/
def bcd2ToInt (v : Nat) : Nat := v / 16 * 10 + v % 16

/-! ## Helper lemmas -/

theorem parity8_unfold (a : Nat) :
    parity8 a =
      (a + a >>> 1 + a >>> 2 + a >>> 3 + a >>> 4 + a >>> 5 + a >>> 6 + a >>> 7) % 2 := rfl

/-- `parity8` computes the parity of the low eight bits of its argument. -/
theorem parity8_eq_setBits8 (a : Nat) : parity8 a = setBits8 a % 2 := by
  rw [parity8_unfold]
  simp only [Nat.shiftRight_eq_div_pow, setBits8]
  norm_num
  omega

theorem parity8_lt_two (a : Nat) : parity8 a < 2 := by
  rw [parity8_unfold]; omega

/-! ## Claim theorems -/

/-- Claim C1: with the scheduled-wake flag true and uptime below the boot-test
duration, the scheduler step of the drift-fix variant never selects BOOT_TEST
(for every wall-clock time and hardware state), and the boot-test start guard
in `setup` is false, so no boot-test transmission is ever started. -/
theorem C1_boot_test_suppressed (hw : HwState) (uptimeMs h m s : Nat)
    (hu : uptimeMs < BOOT_TX_MINUTES * 60 * 1000) :
    (DriftFix.loop true hw uptimeMs h m s).window ≠ OperatingWindow.BOOT_TEST ∧
    DriftFix.setupBootTxStart true uptimeMs = false := by
  refine ⟨?_, by simp [DriftFix.setupBootTxStart]⟩
  simp only [DriftFix.loop]
  rw [if_neg (by simp)]
  split_ifs <;> simp

/-- Claim C1 witness: at uptime 0 ms and wall-clock 03:30:10, the drift-fix
scheduler with the scheduled-wake flag set does not select BOOT_TEST. -/
theorem C1_boot_test_suppressed_witness :
    (0 : Nat) < BOOT_TX_MINUTES * 60 * 1000 ∧
    ((DriftFix.loop true ⟨false, false, false, true, 0, 0, 0⟩ 0 3 30 10).window ≠
        OperatingWindow.BOOT_TEST ∧
      DriftFix.setupBootTxStart true 0 = false) :=
  ⟨by decide, C1_boot_test_suppressed ⟨false, false, false, true, 0, 0, 0⟩ 0 3 30 10 (by decide)⟩

/-- Claim C2: for every latched code value and every subslot in [0,10), the
100 ms handler writes duty `DUTY_50` exactly on subslots 0–1 for MARKER,
0–4 for ONE (CODE_HIGH), 0–7 for ZERO (CODE_LOW), and 0 everywhere else and
for every other code value. -/
theorem C2_onTimer_duty (code : Int) (slot : Nat) (hslot : slot < 10) :
    (onTimer code slot).1 =
      if (code = CODE_MARKER ∧ slot < 2) ∨ (code = CODE_HIGH ∧ slot < 5) ∨
          (code = CODE_LOW ∧ slot < 8) then DUTY_50 else 0 := by
  have h10 : ¬ 10 ≤ slot := by omega
  simp only [onTimer, h10, if_false, CODE_MARKER, CODE_HIGH, CODE_LOW, DUTY_50]
  split_ifs <;> omega

/-- Claim C2 witness: for the MARKER code at subslot 3 the handler writes duty 0. -/
theorem C2_onTimer_duty_witness :
    (3 : Nat) < 10 ∧
    (onTimer 2 3).1 =
      if ((2 : Int) = CODE_MARKER ∧ (3 : Nat) < 2) ∨ ((2 : Int) = CODE_HIGH ∧ (3 : Nat) < 5) ∨
          ((2 : Int) = CODE_LOW ∧ (3 : Nat) < 8) then DUTY_50 else 0 :=
  ⟨by decide, C2_onTimer_duty 2 3 (by decide)⟩

/-- Claim C3: for every hour in [0,24) and minute in [0,60) (and any other
field values), the encoder's symbol at second 36 is ONE exactly when the
number of set bits of the BCD-packed hour is odd (else ZERO), likewise at
second 37 for the BCD-packed minute; and for every non-negative input,
`parity8` returns 0 or 1 equal to the parity of bits 0–7 of its input. -/
theorem C3_parity_bits (t : Tm) (hh : t.tm_hour < 24) (hm : t.tm_min < 60) :
    (t.tm_sec = 36 →
      calculateJJYCodeForTime t =
        if Odd (setBits8 (int3bcd t.tm_hour)) then CODE_HIGH else CODE_LOW) ∧
    (t.tm_sec = 37 →
      calculateJJYCodeForTime t =
        if Odd (setBits8 (int3bcd t.tm_min)) then CODE_HIGH else CODE_LOW) ∧
    (∀ a : Nat, parity8 a = setBits8 a % 2 ∧ parity8 a < 2) := by
  obtain ⟨h1, m1, sec, y1, d1, w1⟩ := t
  refine ⟨?_, ?_, fun a => ⟨parity8_eq_setBits8 a, parity8_lt_two a⟩⟩ <;>
    · intro hs
      subst hs
      simp only [calculateJJYCodeForTime]
      norm_num
      rw [parity8_eq_setBits8]
      split_ifs with ha hb <;> first
        | rfl
        | (exfalso; rw [Nat.odd_iff] at *; omega)

/-- Claim C3 witness: at 23:59:36 the symbol is ONE (the BCD hour 0x23 has an
odd number of set bits), and `parity8 89 = setBits8 89 % 2 < 2`. -/
theorem C3_parity_bits_witness :
    ((23 : Nat) < 24 ∧ (59 : Nat) < 60) ∧
    (calculateJJYCodeForTime ⟨23, 59, 36, 0, 0, 0⟩ =
        if Odd (setBits8 (int3bcd 23)) then CODE_HIGH else CODE_LOW) ∧
    (parity8 89 = setBits8 89 % 2 ∧ parity8 89 < 2) :=
  ⟨by decide,
    (C3_parity_bits ⟨23, 59, 36, 0, 0, 0⟩ (by decide) (by decide)).1 rfl,
    (C3_parity_bits ⟨23, 59, 36, 0, 0, 0⟩ (by decide) (by decide)).2.2 89⟩

/-- Claim C5: encoding hour 23 and minute 59 (for any day-of-year, year and
weekday) and decoding the produced symbols at the minute data seconds 1–8 and
the hour data seconds 12–18 (ONE as a set bit, most-significant-first, with
the reserved zeros skipped) reproduces minute 59 and hour 23 exactly. -/
theorem C5_bcd_roundtrip (yday year wday : Nat) :
    bcd2ToInt (decodedMinuteBcd 23 59 yday year wday) = 59 ∧
    bcd2ToInt (decodedHourBcd 23 59 yday year wday) = 23 := by
  constructor <;>
    · simp [bcd2ToInt, decodedMinuteBcd, decodedHourBcd, symBit, tmAt,
        calculateJJYCodeForTime, int3bcd, CODE_HIGH, CODE_LOW, CODE_MARKER]
      decide

/-- Claim C7: whenever the boot window has elapsed and the current hour is in
the night window with minute at or past the night-transmit duration, the
scheduler selects NIGHT_IDLE, leaves the modulator stopped, and requests a
sleep of `(59 - m) * 60 + (60 - s)` seconds, which is exactly the time to the
next top of hour; in particular at 02:20:00 it requests exactly 2400 seconds. -/
theorem C7_night_idle (hw : HwState) (uptimeMs h m s : Nat)
    (hu : ¬ uptimeMs < BOOT_TX_MINUTES * 60 * 1000)
    (hh1 : NIGHT_START_HOUR ≤ h) (hh2 : h < NIGHT_END_HOUR)
    (hm : NIGHT_TX_MINUTES ≤ m) (hm60 : m < 60) (hs : s < 60) :
    (loop hw uptimeMs h m s).window = OperatingWindow.NIGHT_IDLE ∧
    (loop hw uptimeMs h m s).hw.jjyTimerHandle = false ∧
    (loop hw uptimeMs h m s).sleepSec = some ((59 - m) * 60 + (60 - s)) ∧
    (59 - m) * 60 + (60 - s) = 3600 - (m * 60 + s) ∧
    (loop hw uptimeMs 2 20 0).window = OperatingWindow.NIGHT_IDLE ∧
    (loop hw uptimeMs 2 20 0).sleepSec = some 2400 := by
  have hb : ¬ m < NIGHT_TX_MINUTES := not_lt.mpr hm
  refine ⟨?_, ?_, ?_, by omega, ?_, ?_⟩
  · simp only [loop, if_neg hu, if_pos (And.intro hh1 hh2), if_neg hb]
  · simp only [loop, if_neg hu, if_pos (And.intro hh1 hh2), if_neg hb]
    by_cases hj : hw.jjyTimerHandle <;> simp [stopTransmission, hj]
  · simp only [loop, if_neg hu, if_pos (And.intro hh1 hh2), if_neg hb]
  · simp [loop, if_neg hu, NIGHT_START_HOUR, NIGHT_END_HOUR, NIGHT_TX_MINUTES]
  · simp [loop, if_neg hu, NIGHT_START_HOUR, NIGHT_END_HOUR, NIGHT_TX_MINUTES]

/-- Claim C7 witness: at 02:20:00 with the boot window elapsed, the scheduler
selects NIGHT_IDLE with the modulator stopped and a 2400-second sleep. -/
theorem C7_night_idle_witness :
    (¬ (600000 : Nat) < BOOT_TX_MINUTES * 60 * 1000 ∧ NIGHT_START_HOUR ≤ 2 ∧
      (2 : Nat) < NIGHT_END_HOUR ∧ NIGHT_TX_MINUTES ≤ 20 ∧ (20 : Nat) < 60 ∧ (0 : Nat) < 60) ∧
    ((loop ⟨true, true, true, false, 127, 1, 1⟩ 600000 2 20 0).window =
        OperatingWindow.NIGHT_IDLE ∧
      (loop ⟨true, true, true, false, 127, 1, 1⟩ 600000 2 20 0).hw.jjyTimerHandle = false ∧
      (loop ⟨true, true, true, false, 127, 1, 1⟩ 600000 2 20 0).sleepSec =
        some ((59 - 20) * 60 + (60 - 0)) ∧
      (59 - 20) * 60 + (60 - 0) = 3600 - (20 * 60 + 0) ∧
      (loop ⟨true, true, true, false, 127, 1, 1⟩ 600000 2 20 0).window =
        OperatingWindow.NIGHT_IDLE ∧
      (loop ⟨true, true, true, false, 127, 1, 1⟩ 600000 2 20 0).sleepSec = some 2400) :=
  ⟨by decide,
    C7_night_idle ⟨true, true, true, false, 127, 1, 1⟩ 600000 2 20 0 (by decide) (by decide)
      (by decide) (by decide) (by decide) (by decide)⟩

/-- Claim C4: for every `a ≤ 999`, `int3bcd` packs the three decimal digits of
`a` into separate nibbles: the result equals
`a % 10 + 16 * (a / 10 % 10) + 256 * (a / 100 % 10)`, and masking out each
nibble of the result recovers the corresponding decimal digit. -/
theorem C4_int3bcd_nibbles (a : Nat) (ha : a ≤ 999) :
    int3bcd a = a % 10 + 16 * (a / 10 % 10) + 256 * (a / 100 % 10) ∧
    int3bcd a % 16 = a % 10 ∧
    int3bcd a / 16 % 16 = a / 10 % 10 ∧
    int3bcd a / 256 % 16 = a / 100 % 10 := by
  unfold int3bcd
  refine ⟨by ring, by omega, by omega, ?_⟩
  have h256 : (a % 10 + a / 10 % 10 * 16 + a / 100 % 10 * 256) / 256 = a / 100 % 10 := by
    omega
  rw [h256]
  omega

/-- Claim C4 witness: the nibble decomposition at `a = 579`. -/
theorem C4_int3bcd_nibbles_witness :
    (579 : Nat) ≤ 999 ∧
    (int3bcd 579 = 579 % 10 + 16 * (579 / 10 % 10) + 256 * (579 / 100 % 10) ∧
      int3bcd 579 % 16 = 579 % 10 ∧
      int3bcd 579 / 16 % 16 = 579 / 10 % 10 ∧
      int3bcd 579 / 256 % 16 = 579 / 100 % 10) :=
  ⟨by decide, C4_int3bcd_nibbles 579 (by decide)⟩

/-- Claim C6: for every time record, the encoder returns MARKER at the marker
seconds {0,9,19,29,39,49,59} and ZERO at the reserved seconds {4,14,24},
regardless of all other field values. -/
theorem C6_markers_and_reserved (t : Tm) :
    ((t.tm_sec = 0 ∨ t.tm_sec = 9 ∨ t.tm_sec = 19 ∨ t.tm_sec = 29 ∨ t.tm_sec = 39 ∨
        t.tm_sec = 49 ∨ t.tm_sec = 59) → calculateJJYCodeForTime t = CODE_MARKER) ∧
    ((t.tm_sec = 4 ∨ t.tm_sec = 14 ∨ t.tm_sec = 24) → calculateJJYCodeForTime t = CODE_LOW) := by
  obtain ⟨hh, mm, sec, yy, yd, wd⟩ := t
  constructor
  · rintro (h | h | h | h | h | h | h) <;> subst h <;> simp [calculateJJYCodeForTime]
  · rintro (h | h | h) <;> subst h <;> simp [calculateJJYCodeForTime]

/-- Claim C6 witness: at 12:34:19 the encoder emits MARKER and at 12:34:14 it
emits ZERO (year 125, yday 100, wday 6). -/
theorem C6_markers_and_reserved_witness :
    calculateJJYCodeForTime ⟨12, 34, 19, 125, 100, 6⟩ = CODE_MARKER ∧
    calculateJJYCodeForTime ⟨12, 34, 14, 125, 100, 6⟩ = CODE_LOW :=
  ⟨(C6_markers_and_reserved ⟨12, 34, 19, 125, 100, 6⟩).1 (by decide),
    (C6_markers_and_reserved ⟨12, 34, 14, 125, 100, 6⟩).2 (by decide)⟩

/-- Claim C8: the daytime deep-sleep duration is always strictly positive for
valid time-of-day fields (the 24 h rollover is applied whenever the 23:50:00
target is not strictly in the future), and at 23:59:50 the computed duration
is exactly 85810 seconds. -/
theorem C8_deep_sleep_rollover (dayStart h m s : Int) (hh0 : 0 ≤ h) (hh : h < 24)
    (hm0 : 0 ≤ m) (hm : m < 60) (hs0 : 0 ≤ s) (hs : s < 60) :
    0 < enterDaytimeDeepSleep dayStart h m s ∧
    enterDaytimeDeepSleep dayStart 23 59 50 = 85810 := by
  constructor <;>
    · simp only [enterDaytimeDeepSleep, WAKEUP_HOUR, WAKEUP_MIN]
      push_cast
      split_ifs <;> omega

/-- Claim C8 witness: at 23:59:50 the daytime deep-sleep duration is positive
and equals 85810 seconds. -/
theorem C8_deep_sleep_rollover_witness :
    ((0 : Int) ≤ 23 ∧ (23 : Int) < 24 ∧ (0 : Int) ≤ 59 ∧ (59 : Int) < 60 ∧
      (0 : Int) ≤ 50 ∧ (50 : Int) < 60) ∧
    (0 < enterDaytimeDeepSleep 0 23 59 50 ∧ enterDaytimeDeepSleep 0 23 59 50 = 85810) :=
  ⟨by norm_num,
    C8_deep_sleep_rollover 0 23 59 50 (by norm_num) (by norm_num) (by norm_num) (by norm_num)
      (by norm_num) (by norm_num)⟩

/-- Claim C9: `stopTransmission` is idempotent on every hardware state; from a
started state a single stop leaves the timer handle null, the PWM detached,
the antenna pin low and the indicator at its idle (high) level; and
`startTransmission` on a started state is the identity (so it neither re-runs
phase alignment nor re-attaches the PWM peripheral). -/
theorem C9_stop_idempotent_start_guard (s : HwState) :
    stopTransmission (stopTransmission s) = stopTransmission s ∧
    (s.jjyTimerHandle = true →
      (stopTransmission s).jjyTimerHandle = false ∧
      (stopTransmission s).pwmAttached = false ∧
      (stopTransmission s).antHigh = false ∧
      (stopTransmission s).ledHigh = true ∧
      startTransmission s = s) := by
  by_cases hj : s.jjyTimerHandle <;>
    simp [stopTransmission, startTransmission, hj]

/-- Claim C9 witness: from a started state (timer non-null, PWM attached,
antenna high, indicator low), double stop equals single stop, the stopped
state is idle, and start is the identity. -/
theorem C9_stop_idempotent_start_guard_witness :
    stopTransmission (stopTransmission ⟨true, true, true, false, 127, 1, 1⟩) =
      stopTransmission ⟨true, true, true, false, 127, 1, 1⟩ ∧
    ((⟨true, true, true, false, 127, 1, 1⟩ : HwState).jjyTimerHandle = true →
      (stopTransmission ⟨true, true, true, false, 127, 1, 1⟩).jjyTimerHandle = false ∧
      (stopTransmission ⟨true, true, true, false, 127, 1, 1⟩).pwmAttached = false ∧
      (stopTransmission ⟨true, true, true, false, 127, 1, 1⟩).antHigh = false ∧
      (stopTransmission ⟨true, true, true, false, 127, 1, 1⟩).ledHigh = true ∧
      startTransmission ⟨true, true, true, false, 127, 1, 1⟩ =
        ⟨true, true, true, false, 127, 1, 1⟩) :=
  C9_stop_idempotent_start_guard ⟨true, true, true, false, 127, 1, 1⟩

/-- Claim C10: for each symbol held constant over one second, firing the
duty-table handler `onTimer` at each subslot 0..9 and firing the
edge-switching handler `jjyHandler` at each subslot (starting from carrier
off) produce the same carrier on/off level in every subslot. -/
theorem C10_handler_waveform_equiv (sym : ModulationSymbol) (slot : Nat) (hslot : slot < 10) :
    (TickerVariant.levelAfter (tickerCode sym) false slot = true ↔
      (onTimer (inoCode sym) slot).1 ≠ 0) := by
  cases sym <;> (revert slot; decide)

/-- Claim C10 witness: for the ONE symbol at subslot 4 both handlers have the
carrier on. -/
theorem C10_handler_waveform_equiv_witness :
    (4 : Nat) < 10 ∧
    (TickerVariant.levelAfter (tickerCode ModulationSymbol.ONE) false 4 = true ↔
      (onTimer (inoCode ModulationSymbol.ONE) 4).1 ≠ 0) :=
  ⟨by decide, C10_handler_waveform_equiv ModulationSymbol.ONE 4 (by decide)⟩

end JJYVibe
